import Mathlib

/-!
Shallow embedding of the communications core of `ax-devil-device-api`
(files `src/ax_devil_device_api/utils/errors.py`, `core/config.py`,
`core/types.py`, `core/protocol.py`, `core/client.py`, `client.py`),
together with theorems settling the specification claims about it.

Conventions of the embedding:
* Python `None` becomes `Option.none`; a parameter with default `None`
  becomes an `Option` argument supplied explicitly at every call site.
* Python dicts used for error `details` become association lists
  `List (String × String)`.
* Python exceptions become `Except` results: a function that can raise
  returns `Except PyException _` (for construction-time validation) or
  values tagged with `TransportExn` (for transport failures).
* Python `float` timeouts are modelled as `Nat` seconds: no claim depends
  on fractional timeout values, only on the error code produced.
-/

/-- Association-list stand-in for the Python dicts used as error `details`. -/
abbrev Dict := List (String × String)

/-- `charListInfix pat s` decides whether `pat` occurs contiguously in `s`;
this is Python's `pat in s` on strings, including `"" in s = True`. -/
def charListInfix (pat : List Char) : List Char → Bool
  | [] => pat.isEmpty
  | c :: t => pat.isPrefixOf (c :: t) || charListInfix pat t

/-- Python's case-sensitive substring test `pat in s`. -/
def strContains (s pat : String) : Bool :=
  charListInfix pat.data s.data

/-! ## Error taxonomy — `utils/errors.py` -/

/-- The five exception classes deriving from `AxisError` (plus the base
class itself), flattened into a tag since the claims only need the kind. -/
inductive ErrorKind where
  | base
  | authentication
  | configuration
  | network
  | security
  | feature
deriving DecidableEq, Repr

/-- The value state produced by `AxisError.__init__`: `self.code = code`,
`self.message = message`, `self.details = details or {}`. `message` is
`Option String` because `NetworkError.__init__` defaults it to `None`. -/
structure AxisError where
  kind : ErrorKind
  code : String
  message : Option String
  details : Dict
deriving DecidableEq, Repr

/-- `AxisError.__init__(code, message, details=None)`: stores the code and
message unchanged and replaces a `None` (or empty) `details` with `{}`.
In the association-list model `details or {}` is `Option.getD details []`. -/
def AxisError.make (kind : ErrorKind) (code : String) (message : Option String)
    (details : Option Dict) : AxisError :=
  { kind := kind, code := code, message := message, details := details.getD [] }

/-- `NetworkError.__init__(code, message=None)` forwards to
`AxisError.__init__(code, message)` with no details argument. -/
def NetworkError.make (code : String) (message : Option String) : AxisError :=
  AxisError.make .network code message none

/-- `AuthenticationError(code, message, details=None)` uses the inherited
`AxisError.__init__` unchanged. -/
def AuthenticationError.make (code : String) (message : Option String)
    (details : Option Dict) : AxisError :=
  AxisError.make .authentication code message details

/-- The code-indexed default messages of `SecurityError.__init__`:
the dict literal looked up with fallback `"Security error"`. -/
def securityDefaultMessage (code : String) : String :=
  if code = "ssl_verification_failed" then "SSL certificate verification failed"
  else if code = "ssl_error" then "SSL error occurred"
  else if code = "cert_fingerprint_mismatch" then "Certificate fingerprint mismatch"
  else if code = "protocol_error" then "Protocol security error"
  else "Security error"

/-- `SecurityError.__init__(code, message=None, details=None)`: when
`message` is `None` it is replaced by the code-determined default before
calling `AxisError.__init__`. -/
def SecurityError.make (code : String) (message : Option String)
    (details : Option Dict) : AxisError :=
  AxisError.make .security code (some (message.getD (securityDefaultMessage code))) details

/-- Exceptions of Python itself (not part of the repository's taxonomy)
that the embedded code can raise.

* `typeError soleArg`: raised when `ConfigurationError(x)` is called with a
  single positional argument. `ConfigurationError` does not override
  `__init__`, so the call dispatches to
  `AxisError.__init__(self, code, message, details=None)` whose `message`
  parameter has no default: Python raises
  `TypeError: __init__() missing 1 required positional argument: 'message'`
  before any `ConfigurationError` instance exists. The constructor carries
  the string that was passed as the sole argument, so theorems can name
  the failing call site.
* `valueError msg`: raised by `FeatureResponse.__post_init__`. -/
inductive PyException where
  | typeError (soleArg : String)
  | valueError (msg : String)
deriving DecidableEq, Repr

/-! ## Connection configuration — `core/config.py` -/

/-- `AuthMethod(Enum)`: AUTO / BASIC / DIGEST. -/
inductive AuthMethod where
  | auto
  | basic
  | digest
deriving DecidableEq, Repr

/-- `Protocol(Enum)`: HTTPS / HTTP. -/
inductive Protocol where
  | https
  | http
deriving DecidableEq, Repr

/-- `Protocol.value`: the enum's string value. -/
def Protocol.value : Protocol → String
  | .https => "https"
  | .http => "http"

/-- `Protocol.default_port`: `443 if self == Protocol.HTTPS else 80`. -/
def Protocol.default_port : Protocol → Int
  | .https => 443
  | .http => 80

/-- `Protocol.is_secure`: `self == Protocol.HTTPS`. -/
def Protocol.is_secure (p : Protocol) : Bool :=
  p == .https

/-- `SSLConfig` dataclass with its field defaults. -/
structure SSLConfig where
  verify : Bool := true
  ca_cert_path : Option String := none
  client_cert_path : Option String := none
  client_key_path : Option String := none
  expected_fingerprint : Option String := none
deriving DecidableEq, Repr

/-- `CameraConfig` after `__post_init__` has run: `port` is no longer
optional (it was defaulted), `ssl` has been filled in for HTTPS.
Ports are `Int` because Python accepts any integer before validation. -/
structure CameraConfig where
  host : String
  username : String
  password : String
  protocol : Protocol
  port : Int
  auth_method : AuthMethod
  timeout : Nat
  ssl : Option SSLConfig
  allow_insecure : Bool
deriving DecidableEq, Repr

/-- `CameraConfig(...)` construction followed by `__post_init__`:
default the port to the protocol's canonical port, default `ssl` for
secure protocols, validate `0 < port < 65536`, and require
`allow_insecure` for HTTP.  Both `raise ConfigurationError(...)` sites
pass a single positional argument to a constructor that requires
`code` and `message`, so what Python actually raises there is a
`TypeError` (see `PyException.typeError`); the carried string is the
f-string the call site attempted to pass. -/
def CameraConfig.make (host username password : String) (protocol : Protocol)
    (port : Option Int) (auth_method : AuthMethod) (timeout : Nat)
    (ssl : Option SSLConfig) (allow_insecure : Bool) :
    Except PyException CameraConfig :=
  let port := port.getD protocol.default_port
  let ssl := if ssl.isNone && protocol.is_secure then some {} else ssl
  if !(0 < port && port < 65536) then
    .error (.typeError ("Invalid port number: " ++ toString port))
  else if protocol == .http && !allow_insecure then
    .error (.typeError ("HTTP protocol requested but allow_insecure=False. " ++
      "Use CameraConfig.http() to explicitly allow HTTP."))
  else
    .ok { host := host, username := username, password := password,
          protocol := protocol, port := port, auth_method := auth_method,
          timeout := timeout, ssl := ssl, allow_insecure := allow_insecure }

/-- `CameraConfig.http(host, username, password, port=None)`: the named
HTTP constructor, which sets `allow_insecure=True`. -/
def CameraConfig.http (host username password : String) (port : Option Int) :
    Except PyException CameraConfig :=
  CameraConfig.make host username password .http port .auto 10 none true

/-- `CameraConfig.https(host, username, password, *, verify_ssl=True,
port=None, ca_cert=None, cert_fingerprint=None, client_cert=None,
client_key=None)`: the named HTTPS constructor. -/
def CameraConfig.https (host username password : String) (verify_ssl : Bool)
    (port : Option Int) (ca_cert cert_fingerprint client_cert client_key : Option String) :
    Except PyException CameraConfig :=
  CameraConfig.make host username password .https port .auto 10
    (some { verify := verify_ssl, ca_cert_path := ca_cert,
            client_cert_path := client_cert, client_key_path := client_key,
            expected_fingerprint := cert_fingerprint })
    false

/-- `CameraConfig.get_base_url`: omits the port segment exactly when
`self.port in (80, 443)`, regardless of protocol. -/
def CameraConfig.get_base_url (c : CameraConfig) : String :=
  let port_part := if c.port ≠ 80 ∧ c.port ≠ 443 then ":" ++ toString c.port else ""
  c.protocol.value ++ "://" ++ c.host ++ port_part

/-! ## Feature response wrapper — `core/types.py` -/

/-- `FeatureResponse` dataclass fields. -/
structure FeatureResponse (T : Type) where
  fieldData : Option T
  fieldError : Option AxisError
deriving DecidableEq, Repr

/-- `FeatureResponse(_data, _error)` construction followed by
`__post_init__`, which raises `ValueError` iff both fields are not `None`. -/
def FeatureResponse.make {T : Type} (d : Option T) (e : Option AxisError) :
    Except PyException (FeatureResponse T) :=
  if d.isSome && e.isSome then
    .error (.valueError "FeatureResponse cannot have both data and error")
  else
    .ok { fieldData := d, fieldError := e }

/-- `FeatureResponse.is_success`: `self._error is None`. -/
def FeatureResponse.is_success {T : Type} (r : FeatureResponse T) : Bool :=
  r.fieldError.isNone

/-- `FeatureResponse.ok(data)`: `cls(_data=data)`. -/
def FeatureResponse.ok {T : Type} (data : T) : Except PyException (FeatureResponse T) :=
  FeatureResponse.make (some data) none

/-- `FeatureResponse.create_error(error)`: `cls(_error=error)`. -/
def FeatureResponse.create_error {T : Type} (error : AxisError) :
    Except PyException (FeatureResponse T) :=
  FeatureResponse.make none (some error)

/-! ## SHA-256 — the `hashlib.sha256(...).hexdigest()` call used by
`core/protocol.py`'s `get_cert_fingerprint`.  Bytes are `Nat`s below 256;
words are `Nat`s reduced modulo `2^32` by `w32`. -/

/-- Truncation to a 32-bit word. -/
def w32 (n : Nat) : Nat := n % 4294967296

/-- Right rotation of a 32-bit word. -/
def rotr32 (x n : Nat) : Nat := w32 ((x >>> n) ||| (x <<< (32 - n)))

/-- SHA-256 `Σ0`. -/
def bigSigma0 (x : Nat) : Nat := rotr32 x 2 ^^^ rotr32 x 13 ^^^ rotr32 x 22

/-- SHA-256 `Σ1`. -/
def bigSigma1 (x : Nat) : Nat := rotr32 x 6 ^^^ rotr32 x 11 ^^^ rotr32 x 25

/-- SHA-256 `σ0`. -/
def smallSigma0 (x : Nat) : Nat := rotr32 x 7 ^^^ rotr32 x 18 ^^^ (x >>> 3)

/-- SHA-256 `σ1`. -/
def smallSigma1 (x : Nat) : Nat := rotr32 x 17 ^^^ rotr32 x 19 ^^^ (x >>> 10)

/-- SHA-256 `Ch`, with complement taken as xor against the 32-bit mask. -/
def chFn (e f g : Nat) : Nat := (e &&& f) ^^^ ((e ^^^ 4294967295) &&& g)

/-- SHA-256 `Maj`. -/
def majFn (a b c : Nat) : Nat := (a &&& b) ^^^ (a &&& c) ^^^ (b &&& c)

/-- The 64 SHA-256 round constants, in decimal. -/
def sha256K : List Nat :=
  [1116352408, 1899447441, 3049323471, 3921009573, 961987163, 1508970993,
   2453635748, 2870763221, 3624381080, 310598401, 607225278, 1426881987,
   1925078388, 2162078206, 2614888103, 3248222580, 3835390401, 4022224774,
   264347078, 604807628, 770255983, 1249150122, 1555081692, 1996064986,
   2554220882, 2821834349, 2952996808, 3210313671, 3336571891, 3584528711,
   113926993, 338241895, 666307205, 773529912, 1294757372, 1396182291,
   1695183700, 1986661051, 2177026350, 2456956037, 2730485921, 2820302411,
   3259730800, 3345764771, 3516065817, 3600352804, 4094571909, 275423344,
   430227734, 506948616, 659060556, 883997877, 958139571, 1322822218,
   1537002063, 1747873779, 1955562222, 2024104815, 2227730452, 2361852424,
   2428436474, 2756734187, 3204031479, 3329325298]

/-- The SHA-256 initial hash state, in decimal. -/
def sha256H0 : List Nat :=
  [1779033703, 3144134277, 1013904242, 2773480762,
   1359893119, 2600822924, 528734635, 1541459225]

/-- Split a byte list into 64-byte blocks, with structural fuel so the
kernel can evaluate it; `chunks64` supplies fuel equal to the length,
which always suffices since every step consumes at least one element. -/
def chunks64Fuel : Nat → List Nat → List (List Nat)
  | _, [] => []
  | 0, l => [l]
  | fuel + 1, a :: t => ((a :: t).take 64) :: chunks64Fuel fuel ((a :: t).drop 64)

/-- Split a byte list into 64-byte blocks. -/
def chunks64 (l : List Nat) : List (List Nat) :=
  chunks64Fuel l.length l

/-- Big-endian assembly of 4-byte groups into 32-bit words. -/
def bytesToWords : List Nat → List Nat
  | b0 :: b1 :: b2 :: b3 :: rest =>
      (((b0 <<< 8 ||| b1) <<< 8 ||| b2) <<< 8 ||| b3) :: bytesToWords rest
  | _ => []

/-- Message-schedule extension of the 16 block words to 64. -/
def extendWords (w : List Nat) : List Nat :=
  (List.range 48).foldl
    (fun acc i =>
      let t := i + 16
      acc ++ [w32 (smallSigma1 (acc.getD (t - 2) 0) + acc.getD (t - 7) 0 +
                   smallSigma0 (acc.getD (t - 15) 0) + acc.getD (t - 16) 0)]) w

/-- One SHA-256 round on the 8-word working state. -/
def sha256Step (st : List Nat) (kw : Nat × Nat) : List Nat :=
  match st with
  | [a, b, c, d, e, f, g, h] =>
      let t1 := w32 (h + bigSigma1 e + chFn e f g + kw.1 + kw.2)
      let t2 := w32 (bigSigma0 a + majFn a b c)
      [w32 (t1 + t2), a, b, c, w32 (d + t1), e, f, g]
  | other => other

/-- Compression of one 64-byte block into the hash state. -/
def sha256Block (H : List Nat) (block : List Nat) : List Nat :=
  let W := extendWords (bytesToWords block)
  let st := (sha256K.zip W).foldl sha256Step H
  (H.zip st).map (fun p => w32 (p.1 + p.2))

/-- SHA-256 padding: `0x80`, zeros to 56 mod 64, 8-byte big-endian bit length. -/
def sha256Pad (msg : List Nat) : List Nat :=
  let L := msg.length
  let padZeros := (119 - L % 64) % 64
  let bitLen := L * 8
  msg ++ [0x80] ++ List.replicate padZeros 0 ++
    (List.range 8).map (fun i => (bitLen >>> (8 * (7 - i))) % 256)

/-- The eight 32-bit words of the SHA-256 digest of a byte string. -/
def sha256Words (msg : List Nat) : List Nat :=
  (chunks64 (sha256Pad msg)).foldl sha256Block sha256H0

/-- Lowercase hex digit, as `hexdigest` produces. -/
def hexDigit (n : Nat) : Char :=
  if n < 10 then Char.ofNat (48 + n) else Char.ofNat (87 + n)

/-- Eight lowercase hex digits of a 32-bit word. -/
def wordToHex (w : Nat) : String :=
  String.mk ((List.range 8).map (fun i => hexDigit ((w >>> (4 * (7 - i))) % 16)))

/-- `hashlib.sha256(msg).hexdigest()`: 64 lowercase hex characters. -/
def sha256hexdigest (msg : List Nat) : String :=
  String.join ((sha256Words msg).map wordToHex)

/-- `get_cert_fingerprint(cert_der)` from `core/protocol.py`:
the string `SHA256:` followed by the lowercase hex SHA-256 digest. -/
def get_cert_fingerprint (cert_der : List Nat) : String :=
  "SHA256:" ++ sha256hexdigest cert_der

/-! ## Transport layer — `core/protocol.py`, `core/client.py`, `client.py`

The network is an explicit argument: a `Network` value tells the embedding
what the underlying `requests` library would have done for the preliminary
pinning probe and for the authenticated main call, as a function of the
keyword arguments the code passes to it. -/

/-- The part of a `requests.Response` the embedding needs. -/
structure HttpResponse where
  status_code : Nat
deriving DecidableEq, Repr

/-- Modelled from the spec: `TransportResponse` is imported by
`core/client.py` and `core/protocol.py` from `core/types.py`, but
`core/types.py` in src defines only `FeatureResponse`; the class itself is
missing.  Spec §3/§6 (ResponseWrapper): exactly one of the payload and the
error is populated, built by the `from_response` / `from_error`
constructors used at every call site in src. -/
structure TransportResponse where
  raw : Option HttpResponse
  error : Option AxisError
deriving DecidableEq, Repr

/-- `TransportResponse.from_error(error)`. -/
def TransportResponse.from_error (e : AxisError) : TransportResponse :=
  { raw := none, error := some e }

/-- `TransportResponse.from_response(response)`. -/
def TransportResponse.from_response (r : HttpResponse) : TransportResponse :=
  { raw := some r, error := none }

/-- Values the code passes as the `verify` keyword of `requests`:
`True`/`False` or a CA-bundle path. -/
inductive VerifyOpt where
  | flag (b : Bool)
  | caBundle (path : String)
deriving DecidableEq, Repr

/-- Values the code passes as the `cert` keyword of `requests`:
a client-certificate path alone, or a `(cert, key)` pair. -/
inductive CertSpec where
  | certOnly (cert : String)
  | certAndKey (cert key : String)
deriving DecidableEq, Repr

/-- The `ssl_kwargs` dict built by `ProtocolHandler.execute_request`;
its `verify` key is assigned in both branches, `cert` only conditionally. -/
structure SslKwargs where
  verify : VerifyOpt
  cert : Option CertSpec
deriving DecidableEq, Repr

/-- Lines 27–44 of `core/protocol.py`: `ssl_kwargs["verify"]` is `True`
(replaced by the CA path when one is set) only under `if self.config.ssl.verify:`,
and `False` otherwise; `ssl_kwargs["cert"]` is the client cert path or pair. -/
def ProtocolHandler.ssl_kwargs (ssl : SSLConfig) : SslKwargs :=
  let verify :=
    if ssl.verify then
      match ssl.ca_cert_path with
      | some path => VerifyOpt.caBundle path
      | none => VerifyOpt.flag true
    else VerifyOpt.flag false
  let cert :=
    match ssl.client_cert_path with
    | some certPath =>
        match ssl.client_key_path with
        | some keyPath => some (CertSpec.certAndKey certPath keyPath)
        | none => some (CertSpec.certOnly certPath)
    | none => none
  { verify := verify, cert := cert }

/-- Exceptions the underlying transport stack can raise into
`execute_request` / `CameraClient.request`, partitioned the way the
`except` clauses of the source distinguish them:

* `sslError` — `requests.exceptions.SSLError`;
* `connectionError` — a `requests.exceptions.ConnectionError` that is not
  an `SSLError` (this category includes `ConnectTimeout`, which inherits
  from both `ConnectionError` and `Timeout` and is therefore taken by the
  `except ConnectionError` clause of `execute_request` first);
* `timeout` — a `requests.exceptions.Timeout` that is not a
  `ConnectionError` (e.g. `ReadTimeout`);
* `otherRequest` — any other `requests.exceptions.RequestException`;
* `authError` — the `AuthenticationError` raised by the auth negotiator
  (`core/auth.py`, absent from src; spec §4.3 has it raise
  `AuthenticationError`), carried as its constructor arguments. -/
inductive TransportExn where
  | sslError (msg : String)
  | connectionError (msg : String)
  | timeout
  | otherRequest (msg : String)
  | authError (code : String) (message : Option String) (details : Option Dict)
deriving DecidableEq, Repr

/-- What the network does during one `CameraClient.request` call:
`pinProbe` is the outcome of the preliminary
`requests.get(base_url, verify=..., cert=...)` of the pinning branch
(`.ok none` models `response.raw.connection.sock` being unavailable, in
which case the source falls through without checking; `.ok (some der)`
yields the peer certificate's DER bytes), and `main` is the outcome of
`request_func(**ssl_kwargs)` — `none` standing for the kwargs-free
`request_func()` call of the non-TLS branch. -/
structure Network where
  pinProbe : VerifyOpt → Option CertSpec → Except TransportExn (Option (List Nat))
  main : Option SslKwargs → Except TransportExn HttpResponse

/-- The `except SSLError` / `except ConnectionError` clauses of
`ProtocolHandler.execute_request` (lines 66–91); any other exception is
not caught there and propagates (`Except.error`). -/
def ProtocolHandler.handle_exception (config : CameraConfig) (e : TransportExn) :
    Except TransportExn TransportResponse :=
  match e with
  | .sslError msg =>
      if config.protocol == .https then
        if strContains msg "CERTIFICATE_VERIFY_FAILED" then
          .ok (TransportResponse.from_error (SecurityError.make "ssl_verification_failed"
            (some "SSL certificate verification failed") none))
        else
          .ok (TransportResponse.from_error (SecurityError.make "ssl_error" (some msg) none))
      else
        .ok (TransportResponse.from_error (SecurityError.make "protocol_error"
          (some ("SSL error with non-HTTPS protocol: " ++ msg)) none))
  | .connectionError msg =>
      if strContains msg "Connection refused" then
        .ok (TransportResponse.from_error (NetworkError.make "connection_refused"
          (some "Connection refused by remote host")))
      else
        .ok (TransportResponse.from_error (NetworkError.make "connection_error" (some msg)))
  | e => .error e

/-- The certificate-pinning pre-check (lines 46–58): when a fingerprint is
pinned, issue the preliminary `requests.get(..., verify=False,
cert=ssl_kwargs.get("cert"))`, and when a peer certificate can be read off
the socket, compare its computed fingerprint with the expected one by the
`!=` operator (case-sensitively); a mismatch short-circuits with an error
wrapper (`.ok (some resp)`), otherwise the check falls through (`.ok none`). -/
def ProtocolHandler.pin_check (ssl : SSLConfig) (net : Network) (kwargs : SslKwargs) :
    Except TransportExn (Option TransportResponse) :=
  match ssl.expected_fingerprint with
  | none => .ok none
  | some expected =>
      match net.pinProbe (VerifyOpt.flag false) kwargs.cert with
      | .error e => .error e
      | .ok none => .ok none
      | .ok (some certDer) =>
          let actual := get_cert_fingerprint certDer
          if actual ≠ expected then
            .ok (some (TransportResponse.from_error (SecurityError.make
              "cert_fingerprint_mismatch"
              (some ("Certificate fingerprint mismatch. Expected: " ++ expected ++
                ", Got: " ++ actual))
              none)))
          else .ok none

/-- The `try` body of `ProtocolHandler.execute_request` (lines 25–64):
when the protocol is secure and an `SSLConfig` is present, resolve the
TLS keyword arguments, run the pinning pre-check and dispatch the main
call with those kwargs; otherwise dispatch with none. -/
def ProtocolHandler.try_body (config : CameraConfig) (net : Network) :
    Except TransportExn TransportResponse :=
  match config.ssl, config.protocol.is_secure with
  | some ssl, true =>
      let kwargs := ProtocolHandler.ssl_kwargs ssl
      match ProtocolHandler.pin_check ssl net kwargs with
      | .error e => .error e
      | .ok (some resp) => .ok resp
      | .ok none =>
          match net.main (some kwargs) with
          | .ok r => .ok (TransportResponse.from_response r)
          | .error e => .error e
  | _, _ =>
      match net.main none with
      | .ok r => .ok (TransportResponse.from_response r)
      | .error e => .error e

/-- `ProtocolHandler.execute_request` (lines 22–91): run the `try` body
and classify `SSLError`/`ConnectionError` raised anywhere inside it;
everything else propagates to the caller. -/
def ProtocolHandler.execute_request (config : CameraConfig) (net : Network) :
    Except TransportExn TransportResponse :=
  match ProtocolHandler.try_body config net with
  | .ok r => .ok r
  | .error e => ProtocolHandler.handle_exception config e

/-- `CameraClient.request` (`core/client.py` lines 49–90): the `try` body
delegates to `execute_request`; the `except` clauses catch
`AuthenticationError`, then `requests.exceptions.Timeout`, then
`requests.exceptions.RequestException`.  The last two arms mirror the
`except RequestException` clause for the `SSLError`/`ConnectionError`
categories, which are `RequestException` subclasses — they never escape
`execute_request`, but the clause would classify them as `request_failed`
if they did. -/
def CameraClient.request (config : CameraConfig) (net : Network) : TransportResponse :=
  match ProtocolHandler.execute_request config net with
  | .ok r => r
  | .error (.authError code message details) =>
      TransportResponse.from_error (AuthenticationError.make code message details)
  | .error .timeout =>
      TransportResponse.from_error (NetworkError.make "request_timeout"
        (some ("Request timed out after " ++ toString config.timeout ++ "s")))
  | .error (.otherRequest msg) =>
      TransportResponse.from_error (NetworkError.make "request_failed" (some msg))
  | .error (.sslError msg) =>
      TransportResponse.from_error (NetworkError.make "request_failed" (some msg))
  | .error (.connectionError msg) =>
      TransportResponse.from_error (NetworkError.make "request_failed" (some msg))

/-! ## Top-level client lifecycle — `client.py` -/

/-- Lifecycle state of the top-level `Client`: its `_closed` flag, plus
the open/closed state of the underlying transport session.  The session
state is modelled from the spec: the session-managed transport client
(`DeviceClient`, imported by `client.py` from `core.client`) is absent
from src — only its callers and tests are present — and spec §3/§4.5 give
its session the lifecycle «created on construction, destroyed on close». -/
structure TopClient where
  closed : Bool
  core_open : Bool
deriving DecidableEq, Repr

/-- The state of a freshly constructed `Client`: `self._closed = False`
and an active session. -/
def Client.init : TopClient :=
  { closed := false, core_open := true }

/-- `Client.close` (lines 103–113): only when `not self._closed` does it
close the core session and set `self._closed = True` (the
`hasattr(self, '_core')` conjunct is always true once `__init__` ran). -/
def Client.close (c : TopClient) : TopClient :=
  if !c.closed then { closed := true, core_open := false } else c

/-- Modelled from the spec: request dispatch of the session-managed
transport client, absent from src.  Spec §4.5: in state `OPEN` a request
is dispatched through the protocol/auth pipeline; `CLOSED` is terminal
and «any subsequent `request` must fail fast, not silently reopen», so a
request against a closed client returns an error wrapper without touching
the network. -/
def TransportClient.request (c : TopClient) (config : CameraConfig) (net : Network) :
    TransportResponse :=
  if c.core_open then CameraClient.request config net
  else TransportResponse.from_error (NetworkError.make "request_failed"
    (some "Transport client is closed"))

/-! ## Helper values and predicates used by the theorems -/

/-- Decidable equality for `Except` results, so concrete runs of the
embedded code can be checked by `decide`. -/
instance {ε α : Type} [DecidableEq ε] [DecidableEq α] : DecidableEq (Except ε α) := fun x y =>
  match x, y with
  | .ok a, .ok b =>
      if h : a = b then .isTrue (by rw [h])
      else .isFalse (by intro hh; injection hh; exact h ‹_›)
  | .error a, .error b =>
      if h : a = b then .isTrue (by rw [h])
      else .isFalse (by intro hh; injection hh; exact h ‹_›)
  | .ok _, .error _ => .isFalse (by intro hh; cases hh)
  | .error _, .ok _ => .isFalse (by intro hh; cases hh)

/-- Whether the configuration has no certificate pin, so the main call is
always dispatched. -/
def noPinning (config : CameraConfig) : Bool :=
  match config.ssl with
  | none => true
  | some s => s.expected_fingerprint.isNone

/-- A sample taxonomy error for instantiating theorems. -/
def sampleError : AxisError :=
  AxisError.make .feature "feature_error" (some "sample") none

/-- The configuration produced by `CameraConfig.https("h", "u", "p")`. -/
def cfgHttps : CameraConfig :=
  { host := "h", username := "u", password := "p", protocol := .https, port := 443,
    auth_method := .auto, timeout := 10, ssl := some {}, allow_insecure := false }

/-- A network whose main call always yields the given outcome and whose
pinning probe never exposes a peer certificate. -/
def netConst (r : Except TransportExn HttpResponse) : Network :=
  { pinProbe := fun _ _ => .ok none, main := fun _ => r }

/-! ## Claim theorems -/

/-- C1 counterexample: the claim asserts «exactly one of data and error is
populated — never both, never neither», but constructing a
`FeatureResponse` with neither data nor error succeeds (it is the
dataclass's default construction), yielding a wrapper whose `data` and
`error` are both null and which reports success. -/
theorem C1_counterexample :
    FeatureResponse.make (T := Nat) none none =
      .ok { fieldData := none, fieldError := none } ∧
    (FeatureResponse.is_success (T := Nat) { fieldData := none, fieldError := none }) = true := by
  decide

/-- C1 (amended): for every constructed `FeatureResponse`, `is_success`
equals «error is null», and data and error are never both populated —
constructing with both non-null fails fast with `ValueError`; however a
response with neither data nor error is constructible and counts as a
success with null data. -/
theorem C1_mutual_exclusivity (T : Type) (d : Option T) (e : Option AxisError) :
    (∀ r, FeatureResponse.make d e = .ok r →
      r.is_success = r.fieldError.isNone ∧
      (r.fieldError.isSome = true → r.fieldData = none) ∧
      (r.fieldData.isSome = true → r.fieldError = none)) ∧
    (d.isSome = true → e.isSome = true →
      FeatureResponse.make d e =
        .error (.valueError "FeatureResponse cannot have both data and error")) := by
  constructor
  · intro r h
    cases d <;> cases e <;> simp [FeatureResponse.make] at h <;>
      simp [← h, FeatureResponse.is_success]
  · intro hd he
    cases d <;> cases e <;> simp_all [FeatureResponse.make]

/-- C1 witness: the amended theorem applied at a successful data-carrying
response and at a both-populated construction attempt. -/
theorem C1_mutual_exclusivity_witness :
    (FeatureResponse.is_success (T := Nat) { fieldData := some 1, fieldError := none }) = true ∧
    FeatureResponse.make (T := Nat) (some 1) (some sampleError) =
      .error (.valueError "FeatureResponse cannot have both data and error") :=
  ⟨((C1_mutual_exclusivity Nat (some 1) none).1 _ rfl).1.trans rfl,
   (C1_mutual_exclusivity Nat (some 1) (some sampleError)).2 rfl rfl⟩

/-- C6: port bounds are checked as claimed (0 and 65536 rejected, 1 and
65535 accepted, omitted port defaults to the protocol's canonical port),
but the rejection does not produce `ConfigurationError{invalid_port}`:
the source calls `ConfigurationError(f"Invalid port number: {port}")`
with one positional argument while the inherited `AxisError.__init__`
requires `code` and `message`, so Python raises `TypeError` — and even
the attempted sole argument is the human-readable sentence, not the code
`invalid_port`. -/
theorem C6_port_validation :
    CameraConfig.make "h" "u" "p" .https (some 0) .auto 10 none false =
      .error (.typeError "Invalid port number: 0") ∧
    CameraConfig.make "h" "u" "p" .https (some 65536) .auto 10 none false =
      .error (.typeError "Invalid port number: 65536") ∧
    CameraConfig.make "h" "u" "p" .https (some 1) .auto 10 none false =
      .ok { host := "h", username := "u", password := "p", protocol := .https, port := 1,
            auth_method := .auto, timeout := 10, ssl := some {}, allow_insecure := false } ∧
    CameraConfig.make "h" "u" "p" .https (some 65535) .auto 10 none false =
      .ok { host := "h", username := "u", password := "p", protocol := .https, port := 65535,
            auth_method := .auto, timeout := 10, ssl := some {}, allow_insecure := false } ∧
    (CameraConfig.make "h" "u" "p" .https none .auto 10 none false).map CameraConfig.port =
      .ok 443 ∧
    (CameraConfig.make "h" "u" "p" .http none .auto 10 none true).map CameraConfig.port =
      .ok 80 := by
  decide

/-- C7: HTTP without the insecure-allowed flag is rejected and the named
HTTP constructor (or any construction with the flag) succeeds, but the
rejection raises `TypeError`, not `ConfigurationError` with code
`http_protocol_requested`: `ConfigurationError(...)` is called with a
single positional argument while the inherited `AxisError.__init__`
requires `code` and `message`. -/
theorem C7_http_insecure_validation :
    CameraConfig.make "h" "u" "p" .http none .auto 10 none false =
      .error (.typeError ("HTTP protocol requested but allow_insecure=False. " ++
        "Use CameraConfig.http() to explicitly allow HTTP.")) ∧
    CameraConfig.http "h" "u" "p" none =
      .ok { host := "h", username := "u", password := "p", protocol := .http, port := 80,
            auth_method := .auto, timeout := 10, ssl := none, allow_insecure := true } ∧
    CameraConfig.make "h" "u" "p" .http (some 8080) .auto 10 none true =
      .ok { host := "h", username := "u", password := "p", protocol := .http, port := 8080,
            auth_method := .auto, timeout := 10, ssl := none, allow_insecure := true } := by
  decide

/-- C8 counterexample: a validly constructed HTTPS descriptor with port 80
derives base URL `https://h` — the port segment is omitted although 80 is
not the canonical HTTPS port 443, where the claim demands `https://h:80`. -/
theorem C8_counterexample :
    (CameraConfig.https "h" "u" "p" true (some 80) none none none none).map
      CameraConfig.get_base_url = .ok "https://h" ∧
    "https://h" ≠ "https://h:80" := by
  decide

/-- C8 (amended): for every Connection Descriptor the derived base URL is
`scheme://host` with the port segment omitted exactly when the port is 80
or 443 — regardless of which protocol the descriptor uses — and
`scheme://host:port` for every other port. -/
theorem C8_base_url_omission (c : CameraConfig) :
    c.get_base_url = c.protocol.value ++ "://" ++ c.host ++
      (if c.port = 80 ∨ c.port = 443 then "" else ":" ++ toString c.port) := by
  unfold CameraConfig.get_base_url
  by_cases h80 : c.port = 80 <;> by_cases h443 : c.port = 443 <;> simp [h80, h443]

/-- C10: a `SecurityError` constructed without a message gets the
code-determined default message (with `"Security error"` for every code
outside the four known ones), and the `details` field of every error is a
map — empty when omitted, the given map otherwise. -/
theorem C10_security_error_defaults (code m : String) (d : Dict)
    (h : code ≠ "ssl_verification_failed" ∧ code ≠ "ssl_error" ∧
         code ≠ "cert_fingerprint_mismatch" ∧ code ≠ "protocol_error") :
    (SecurityError.make "ssl_verification_failed" none none).message =
      some "SSL certificate verification failed" ∧
    (SecurityError.make "ssl_error" none none).message = some "SSL error occurred" ∧
    (SecurityError.make "cert_fingerprint_mismatch" none none).message =
      some "Certificate fingerprint mismatch" ∧
    (SecurityError.make "protocol_error" none none).message =
      some "Protocol security error" ∧
    (SecurityError.make code none none).message = some "Security error" ∧
    (SecurityError.make code none none).details = [] ∧
    (SecurityError.make code (some m) (some d)).details = d ∧
    (SecurityError.make code (some m) (some d)).message = some m ∧
    (NetworkError.make code (some m)).details = [] ∧
    (AuthenticationError.make code (some m) none).details = [] := by
  refine ⟨rfl, rfl, rfl, rfl, ?_, rfl, rfl, rfl, rfl, rfl⟩
  simp [SecurityError.make, AxisError.make, securityDefaultMessage, h.1, h.2.1, h.2.2.1, h.2.2.2]

/-- C10 witness: the defaults theorem applied at the unknown code
`device_error` with a one-entry details map. -/
theorem C10_security_error_defaults_witness :
    (SecurityError.make "device_error" none none).message = some "Security error" ∧
    (SecurityError.make "device_error" (some "msg") (some [("k", "v")])).details =
      [("k", "v")] := by
  have h := C10_security_error_defaults "device_error" "msg" [("k", "v")] (by decide)
  exact ⟨h.2.2.2.2.1, h.2.2.2.2.2.2.1⟩

/-- Every `.ok` result of the `except` clauses carries a network- or
security-kind error. -/
theorem handle_exception_kinds (config : CameraConfig) (e : TransportExn)
    (r : TransportResponse) (h : ProtocolHandler.handle_exception config e = .ok r) :
    ∃ err, r.error = some err ∧ (err.kind = .network ∨ err.kind = .security) := by
  cases e with
  | sslError msg =>
      simp only [ProtocolHandler.handle_exception] at h
      split at h
      · split at h <;> (injection h with h; exact ⟨_, by rw [← h]; rfl, Or.inr rfl⟩)
      · injection h with h; exact ⟨_, by rw [← h]; rfl, Or.inr rfl⟩
  | connectionError msg =>
      simp only [ProtocolHandler.handle_exception] at h
      split at h <;> (injection h with h; exact ⟨_, by rw [← h]; rfl, Or.inl rfl⟩)
  | timeout => simp [ProtocolHandler.handle_exception] at h
  | otherRequest msg => simp [ProtocolHandler.handle_exception] at h
  | authError code msg details => simp [ProtocolHandler.handle_exception] at h

/-- A pinning pre-check that short-circuits does so with a security-kind
`cert_fingerprint_mismatch` error wrapper. -/
theorem pin_check_some_kinds (ssl : SSLConfig) (net : Network) (kwargs : SslKwargs)
    (resp : TransportResponse)
    (h : ProtocolHandler.pin_check ssl net kwargs = .ok (some resp)) :
    ∃ err, resp.error = some err ∧ err.kind = .security ∧
      err.code = "cert_fingerprint_mismatch" := by
  simp only [ProtocolHandler.pin_check] at h
  split at h
  · simp at h
  · split at h
    · simp at h
    · simp at h
    · split at h
      · simp only [Except.ok.injEq, Option.some.injEq] at h
        exact ⟨_, by rw [← h]; rfl, rfl, rfl⟩
      · simp at h

/-- With no pin configured, the `try` body is exactly the dispatch of the
main call (with the resolved kwargs in the TLS branch, with none otherwise). -/
theorem try_body_noPin (config : CameraConfig) (net : Network)
    (hpin : noPinning config = true) :
    ProtocolHandler.try_body config net =
      match config.ssl, config.protocol.is_secure with
      | some ssl, true =>
          (match net.main (some (ProtocolHandler.ssl_kwargs ssl)) with
           | .ok r => .ok (TransportResponse.from_response r)
           | .error e => .error e)
      | _, _ =>
          (match net.main none with
           | .ok r => .ok (TransportResponse.from_response r)
           | .error e => .error e) := by
  unfold ProtocolHandler.try_body
  unfold noPinning at hpin
  cases hssl : config.ssl with
  | none => rfl
  | some ssl =>
      rw [hssl] at hpin
      cases hsec : config.protocol.is_secure with
      | false => rfl
      | true =>
          have hfp : ssl.expected_fingerprint = none := by simpa using hpin
          simp [ProtocolHandler.pin_check, hfp]

/-- With no pin configured and a main call that always raises `e`, the
`try` body raises `e`. -/
theorem try_body_const_error (config : CameraConfig) (net : Network) (e : TransportExn)
    (hpin : noPinning config = true) (hmain : net.main = fun _ => .error e) :
    ProtocolHandler.try_body config net = .error e := by
  rw [try_body_noPin config net hpin]
  cases config.ssl <;> cases config.protocol.is_secure <;> simp [hmain]

/-- With no pin configured and a main call that always raises `e`,
`execute_request` is exactly the `except`-clause classifier applied to `e`. -/
theorem execute_request_const_error (config : CameraConfig) (net : Network)
    (e : TransportExn) (hpin : noPinning config = true)
    (hmain : net.main = fun _ => .error e) :
    ProtocolHandler.execute_request config net =
      ProtocolHandler.handle_exception config e := by
  unfold ProtocolHandler.execute_request
  rw [try_body_const_error config net e hpin hmain]

/-- Every `.ok` result of the `try` body is either a success wrapper or the
pinning mismatch security error. -/
theorem try_body_ok_kinds (config : CameraConfig) (net : Network) (r : TransportResponse)
    (h : ProtocolHandler.try_body config net = .ok r) :
    r.error = none ∨ ∃ err, r.error = some err ∧ err.kind = .security := by
  unfold ProtocolHandler.try_body at h
  split at h
  · rename_i ssl hssl hsec
    dsimp only at h
    split at h
    · simp at h
    · rename_i resp hpc
      injection h with h
      obtain ⟨err, herr, hkind, _⟩ := pin_check_some_kinds ssl net _ resp hpc
      exact Or.inr ⟨err, by rw [← h]; exact herr, hkind⟩
    · split at h
      · injection h with h
        exact Or.inl (by rw [← h]; rfl)
      · simp at h
  · split at h
    · injection h with h
      exact Or.inl (by rw [← h]; rfl)
    · simp at h

/-- Every `.ok` result of `execute_request` is a success wrapper or carries
a network- or security-kind error. -/
theorem execute_request_ok_kinds (config : CameraConfig) (net : Network)
    (r : TransportResponse) (h : ProtocolHandler.execute_request config net = .ok r) :
    r.error = none ∨ ∃ err, r.error = some err ∧
      (err.kind = .network ∨ err.kind = .security) := by
  unfold ProtocolHandler.execute_request at h
  split at h
  · rename_i r2 htb
    injection h with h
    rcases try_body_ok_kinds config net r2 htb with hnone | ⟨err, herr, hkind⟩
    · exact Or.inl (by rw [← h]; exact hnone)
    · exact Or.inr ⟨err, by rw [← h]; exact herr, Or.inr hkind⟩
  · obtain ⟨err, herr, hkind⟩ := handle_exception_kinds config _ r h
    exact Or.inr ⟨err, herr, hkind⟩

/-- C9: `close()` is idempotent, and the CLOSED state is terminal — a
request issued after `close()` yields an error wrapper without touching
the network (the same result for any network behaviour), rather than
silently reopening a session. -/
theorem C9_close_lifecycle (c : TopClient) (config : CameraConfig) (net net2 : Network) :
    Client.close (Client.close c) = Client.close c ∧
    Client.close Client.init = { closed := true, core_open := false } ∧
    (TransportClient.request (Client.close Client.init) config net).error =
      some (NetworkError.make "request_failed" (some "Transport client is closed")) ∧
    TransportClient.request (Client.close Client.init) config net =
      TransportClient.request (Client.close Client.init) config net2 := by
  obtain ⟨cl, op⟩ := c
  cases cl <;>
    simp [Client.close, Client.init, TransportClient.request, TransportResponse.from_error]

/-- C2: `CameraClient.request` never propagates a transport exception —
whenever it reports an error at all, the error is a typed taxonomy error
(authentication / network / security kind); with no pin configured, a
main call that raises always yields an error wrapper, a raised `Timeout`
becomes `NetworkError{request_timeout}`, and any other raised
`RequestException` outside the `SSLError`/`ConnectionError` categories
becomes `NetworkError{request_failed}`. -/
theorem C2_request_classifies_exceptions (config : CameraConfig) (net : Network) :
    (∀ err, (CameraClient.request config net).error = some err →
      err.kind = .authentication ∨ err.kind = .network ∨ err.kind = .security) ∧
    (noPinning config = true →
      ∀ e : TransportExn, net.main = (fun _ => .error e) →
        (CameraClient.request config net).error.isSome = true) ∧
    (noPinning config = true → net.main = (fun _ => .error .timeout) →
      (CameraClient.request config net).error =
        some (NetworkError.make "request_timeout"
          (some ("Request timed out after " ++ toString config.timeout ++ "s")))) ∧
    (∀ msg, noPinning config = true →
      net.main = (fun _ => .error (.otherRequest msg)) →
      (CameraClient.request config net).error =
        some (NetworkError.make "request_failed" (some msg))) := by
  refine ⟨?_, ?_, ?_, ?_⟩
  · intro err h
    unfold CameraClient.request at h
    cases hex : ProtocolHandler.execute_request config net with
    | ok r =>
        rw [hex] at h
        rcases execute_request_ok_kinds config net r hex with hnone | ⟨err2, herr2, hk⟩
        · rw [hnone] at h; cases h
        · rw [herr2] at h
          injection h with h
          rw [← h]
          exact Or.inr hk
    | error e =>
        rw [hex] at h
        cases e <;> simp only [TransportResponse.from_error, Option.some.injEq] at h <;>
          rw [← h]
        · exact Or.inr (Or.inl rfl)
        · exact Or.inr (Or.inl rfl)
        · exact Or.inr (Or.inl rfl)
        · exact Or.inr (Or.inl rfl)
        · exact Or.inl rfl
  · intro hpin e hmain
    unfold CameraClient.request
    rw [execute_request_const_error config net e hpin hmain]
    cases hh : ProtocolHandler.handle_exception config e with
    | ok r =>
        obtain ⟨err, herr, _⟩ := handle_exception_kinds config e r hh
        simp [herr]
    | error e2 =>
        cases e2 <;> simp [TransportResponse.from_error]
  · intro hpin hmain
    unfold CameraClient.request
    rw [execute_request_const_error config net .timeout hpin hmain]
    rfl
  · intro msg hpin hmain
    unfold CameraClient.request
    rw [execute_request_const_error config net (.otherRequest msg) hpin hmain]
    rfl

/-- C2 witness: the classification applied to a timeout and to a generic
request exception against the default HTTPS configuration. -/
theorem C2_request_classifies_exceptions_witness :
    (CameraClient.request cfgHttps (netConst (.error .timeout))).error =
      some (NetworkError.make "request_timeout" (some "Request timed out after 10s")) ∧
    (CameraClient.request cfgHttps (netConst (.error (.otherRequest "boom")))).error =
      some (NetworkError.make "request_failed" (some "boom")) := by
  constructor
  · have h :=
      (C2_request_classifies_exceptions cfgHttps (netConst (.error .timeout))).2.2.1 rfl rfl
    exact h.trans (by decide)
  · exact (C2_request_classifies_exceptions cfgHttps
      (netConst (.error (.otherRequest "boom")))).2.2.2 "boom" rfl rfl

/-- C3 counterexample: the claim keys the classification on the lowercase
spaced substrings «certificate verify failed» / «connection refused», but
the source matches the case-sensitive `"CERTIFICATE_VERIFY_FAILED"` and
`"Connection refused"`: an SSL failure whose text is exactly
`certificate verify failed` is classified `ssl_error` (the claim demands
`ssl_verification_failed`), and a connection failure whose text is exactly
`connection refused` is classified `connection_error` (the claim demands
`connection_refused`). -/
theorem C3_counterexample :
    CameraConfig.https "h" "u" "p" true none none none none none = .ok cfgHttps ∧
    strContains "certificate verify failed" "certificate verify failed" = true ∧
    (CameraClient.request cfgHttps
        (netConst (.error (.sslError "certificate verify failed")))).error =
      some (SecurityError.make "ssl_error" (some "certificate verify failed") none) ∧
    strContains "connection refused" "connection refused" = true ∧
    (CameraClient.request cfgHttps
        (netConst (.error (.connectionError "connection refused")))).error =
      some (NetworkError.make "connection_error" (some "connection refused")) := by
  decide

/-- C3 (amended): for every pin-free configuration, a TLS handshake
failure is classified `ssl_verification_failed` exactly when its text
contains the case-sensitive substring `CERTIFICATE_VERIFY_FAILED` (under
HTTPS; `ssl_error` otherwise, `protocol_error` when the protocol is not
HTTPS), and a connection-level failure is classified `connection_refused`
exactly when its text contains the case-sensitive substring
`Connection refused`, `connection_error` otherwise. -/
theorem C3_failure_classification (config : CameraConfig) (net : Network) (msg : String)
    (hpin : noPinning config = true) :
    (net.main = (fun _ => .error (.sslError msg)) →
      (CameraClient.request config net).error = some (
        if config.protocol == Protocol.https then
          if strContains msg "CERTIFICATE_VERIFY_FAILED" then
            SecurityError.make "ssl_verification_failed"
              (some "SSL certificate verification failed") none
          else SecurityError.make "ssl_error" (some msg) none
        else
          SecurityError.make "protocol_error"
            (some ("SSL error with non-HTTPS protocol: " ++ msg)) none)) ∧
    (net.main = (fun _ => .error (.connectionError msg)) →
      (CameraClient.request config net).error = some (
        if strContains msg "Connection refused" then
          NetworkError.make "connection_refused" (some "Connection refused by remote host")
        else NetworkError.make "connection_error" (some msg))) := by
  constructor
  · intro hmain
    unfold CameraClient.request
    rw [execute_request_const_error config net _ hpin hmain]
    simp only [ProtocolHandler.handle_exception]
    by_cases h1 : (config.protocol == Protocol.https) = true
    · by_cases h2 : strContains msg "CERTIFICATE_VERIFY_FAILED" = true
      · simp [h1, h2, TransportResponse.from_error]
      · simp [h1, h2, TransportResponse.from_error]
    · simp [h1, TransportResponse.from_error]
  · intro hmain
    unfold CameraClient.request
    rw [execute_request_const_error config net _ hpin hmain]
    simp only [ProtocolHandler.handle_exception]
    by_cases h1 : strContains msg "Connection refused" = true
    · simp [h1, TransportResponse.from_error]
    · simp [h1, TransportResponse.from_error]

/-- C3 witness: the classification applied to a realistic verification
failure text and to a realistic refused-connection text. -/
theorem C3_failure_classification_witness :
    (CameraClient.request cfgHttps (netConst
        (.error (.sslError "[SSL: CERTIFICATE_VERIFY_FAILED] bad cert")))).error =
      some (SecurityError.make "ssl_verification_failed"
        (some "SSL certificate verification failed") none) ∧
    (CameraClient.request cfgHttps (netConst
        (.error (.connectionError "Connection refused by peer")))).error =
      some (NetworkError.make "connection_refused"
        (some "Connection refused by remote host")) := by
  constructor
  · have h := (C3_failure_classification cfgHttps
      (netConst (.error (.sslError "[SSL: CERTIFICATE_VERIFY_FAILED] bad cert")))
      "[SSL: CERTIFICATE_VERIFY_FAILED] bad cert" rfl).1 rfl
    exact h.trans (by decide)
  · have h := (C3_failure_classification cfgHttps
      (netConst (.error (.connectionError "Connection refused by peer")))
      "Connection refused by peer" rfl).2 rfl
    exact h.trans (by decide)

/-- ASCII lower-casing of a character, as Python's `str.lower` acts on
the ASCII alphabet (fingerprint strings are ASCII). -/
def asciiLowerChar (c : Char) : Char :=
  if 65 ≤ c.toNat ∧ c.toNat ≤ 90 then Char.ofNat (c.toNat + 32) else c

/-- ASCII lower-casing of a string, used to state case-insensitive
equality of fingerprints. -/
def asciiLower (s : String) : String :=
  String.mk (s.data.map asciiLowerChar)

/-- The uppercase-hex form of the SHA-256 fingerprint of the empty
certificate, used to exhibit the case-sensitivity of the pin comparison. -/
def expectedUpper : String :=
  "SHA256:E3B0C44298FC1C149AFBF4C8996FB92427AE41E4649B934CA495991B7852B855"

/-- The configuration produced by
`CameraConfig.https("h", "u", "p", cert_fingerprint=expectedUpper)`. -/
def cfgPin : CameraConfig :=
  { host := "h", username := "u", password := "p", protocol := .https, port := 443,
    auth_method := .auto, timeout := 10,
    ssl := some { verify := true, ca_cert_path := none, client_cert_path := none,
                  client_key_path := none, expected_fingerprint := some expectedUpper },
    allow_insecure := false }

/-- A network whose pinning probe exposes the empty certificate and whose
main call would succeed. -/
def netPin : Network :=
  { pinProbe := fun _ _ => .ok (some []), main := fun _ => .ok { status_code := 200 } }

set_option maxRecDepth 8192 in
/-- C4 counterexample: with a pinned fingerprint that differs from the
peer certificate's computed fingerprint only in hex-digit case, the claim
(case-insensitive comparison) demands the request proceed, but the code
compares with `!=` and fails the request with
`SecurityError{cert_fingerprint_mismatch}` — and that error's `details`
map is empty; both fingerprints ride in the message instead. -/
theorem C4_counterexample :
    CameraConfig.https "h" "u" "p" true none none (some expectedUpper) none none =
      .ok cfgPin ∧
    asciiLower expectedUpper = asciiLower (get_cert_fingerprint []) ∧
    CameraClient.request cfgPin netPin = TransportResponse.from_error (SecurityError.make
      "cert_fingerprint_mismatch"
      (some ("Certificate fingerprint mismatch. Expected: " ++ expectedUpper ++
        ", Got: SHA256:e3b0c44298fc1c149afbf4c8996fb92427ae41e4649b934ca495991b7852b855"))
      none) ∧
    (CameraClient.request cfgPin netPin).error.map AxisError.details = some [] := by
  decide

/-- C4 (amended): for every HTTPS descriptor with a pinned fingerprint,
the request first runs a preliminary probe with `verify=False`; when that
probe exposes the peer certificate and its computed `SHA256:<hex>`
fingerprint differs from the expected value as an exact (case-sensitive)
string, the request yields `SecurityError{cert_fingerprint_mismatch}`
whose message — not its `details` map, which stays empty — carries both
fingerprints, and the main request is never issued (the outcome is the
same for any main-call behaviour). -/
theorem C4_fingerprint_pinning (config : CameraConfig) (ssl : SSLConfig)
    (expected : String) (certDer : List Nat) (net : Network)
    (hssl : config.ssl = some ssl)
    (hsec : config.protocol = .https)
    (hfp : ssl.expected_fingerprint = some expected)
    (hprobe : net.pinProbe (VerifyOpt.flag false) (ProtocolHandler.ssl_kwargs ssl).cert =
      .ok (some certDer))
    (hne : get_cert_fingerprint certDer ≠ expected) :
    CameraClient.request config net = TransportResponse.from_error (SecurityError.make
      "cert_fingerprint_mismatch"
      (some ("Certificate fingerprint mismatch. Expected: " ++ expected ++ ", Got: " ++
        get_cert_fingerprint certDer)) none) ∧
    (CameraClient.request config net).error.map AxisError.details = some [] ∧
    get_cert_fingerprint certDer = "SHA256:" ++ sha256hexdigest certDer ∧
    (∀ net2 : Network, net2.pinProbe = net.pinProbe →
      CameraClient.request config net2 = CameraClient.request config net) := by
  have aux : ∀ n : Network,
      n.pinProbe (VerifyOpt.flag false) (ProtocolHandler.ssl_kwargs ssl).cert =
        .ok (some certDer) →
      CameraClient.request config n = TransportResponse.from_error (SecurityError.make
        "cert_fingerprint_mismatch"
        (some ("Certificate fingerprint mismatch. Expected: " ++ expected ++ ", Got: " ++
          get_cert_fingerprint certDer)) none) := by
    intro n hpn
    have hpc : ProtocolHandler.pin_check ssl n (ProtocolHandler.ssl_kwargs ssl) =
        .ok (some (TransportResponse.from_error (SecurityError.make
          "cert_fingerprint_mismatch"
          (some ("Certificate fingerprint mismatch. Expected: " ++ expected ++ ", Got: " ++
            get_cert_fingerprint certDer)) none))) := by
      unfold ProtocolHandler.pin_check
      rw [hfp, hpn]
      simp [hne]
    have htb : ProtocolHandler.try_body config n =
        .ok (TransportResponse.from_error (SecurityError.make
          "cert_fingerprint_mismatch"
          (some ("Certificate fingerprint mismatch. Expected: " ++ expected ++ ", Got: " ++
            get_cert_fingerprint certDer)) none)) := by
      unfold ProtocolHandler.try_body
      have hsec2 : config.protocol.is_secure = true := by rw [hsec]; rfl
      rw [hssl, hsec2]
      dsimp only
      rw [hpc]
    unfold CameraClient.request ProtocolHandler.execute_request
    rw [htb]
  refine ⟨aux net hprobe, ?_, rfl, ?_⟩
  · rw [aux net hprobe]; rfl
  · intro net2 hpn2
    rw [aux net hprobe, aux net2 (by rw [hpn2]; exact hprobe)]

/-- C4 witness: the pinning theorem applied to the uppercase pin against
the empty peer certificate. -/
theorem C4_fingerprint_pinning_witness :
    CameraClient.request cfgPin netPin = TransportResponse.from_error (SecurityError.make
      "cert_fingerprint_mismatch"
      (some ("Certificate fingerprint mismatch. Expected: " ++ expectedUpper ++ ", Got: " ++
        get_cert_fingerprint [])) none) :=
  (C4_fingerprint_pinning cfgPin
    { verify := true, ca_cert_path := none, client_cert_path := none,
      client_key_path := none, expected_fingerprint := some expectedUpper }
    expectedUpper [] netPin rfl rfl rfl rfl (by decide)).1

/-- The `SSLConfig` of an HTTPS descriptor with verification disabled but
a custom CA bundle configured. -/
def sslNoVerifyCa : SSLConfig :=
  { verify := false, ca_cert_path := some "/ca.crt", client_cert_path := none,
    client_key_path := none, expected_fingerprint := none }

/-- The configuration produced by
`CameraConfig.https("h", "u", "p", verify_ssl=False, ca_cert="/ca.crt")`. -/
def cfgNoVerifyCa : CameraConfig :=
  { host := "h", username := "u", password := "p", protocol := .https, port := 443,
    auth_method := .auto, timeout := 10, ssl := some sslNoVerifyCa,
    allow_insecure := false }

/-- A network whose main call succeeds only when dispatched with the
`verify=False` keyword, recording which verification option reached the
transport. -/
def netCheckVerify : Network :=
  { pinProbe := fun _ _ => .ok none,
    main := fun kw =>
      match kw with
      | some k =>
          if k.verify = VerifyOpt.flag false then .ok { status_code := 200 }
          else .error (.otherRequest "unexpected verify option")
      | none => .error (.otherRequest "missing kwargs") }

/-- C5 counterexample: with `verify=False` and a CA bundle both set on a
validly constructed HTTPS descriptor, the request is dispatched with
`verify=False` — the CA bundle is ignored, so `verify=false` takes
precedence over `ca_cert_path`, contrary to the claimed precedence. -/
theorem C5_counterexample :
    CameraConfig.https "h" "u" "p" false none (some "/ca.crt") none none none =
      .ok cfgNoVerifyCa ∧
    (ProtocolHandler.ssl_kwargs sslNoVerifyCa).verify = VerifyOpt.flag false ∧
    VerifyOpt.flag false ≠ VerifyOpt.caBundle "/ca.crt" ∧
    CameraClient.request cfgNoVerifyCa netCheckVerify =
      TransportResponse.from_response { status_code := 200 } := by
  decide

/-- C5 (amended): the CA bundle is used as the request's verification
value only when `verify` is true; `verify=false` disables verification
even when `ca_cert_path` is set, so the precedence is
«explicit disable > custom CA bundle > default trust store» (fingerprint
pinning still runs first, independently, whenever a pin is set); and in
the TLS branch the main call receives exactly the resolved kwargs. -/
theorem C5_verify_precedence (ssl : SSLConfig) (path : String) (config : CameraConfig)
    (net : Network) :
    (ssl.verify = true → ssl.ca_cert_path = some path →
      (ProtocolHandler.ssl_kwargs ssl).verify = VerifyOpt.caBundle path) ∧
    (ssl.verify = true → ssl.ca_cert_path = none →
      (ProtocolHandler.ssl_kwargs ssl).verify = VerifyOpt.flag true) ∧
    (ssl.verify = false → (ProtocolHandler.ssl_kwargs ssl).verify = VerifyOpt.flag false) ∧
    (config.ssl = some ssl → config.protocol = .https → ssl.expected_fingerprint = none →
      ProtocolHandler.try_body config net =
        (net.main (some (ProtocolHandler.ssl_kwargs ssl))).map
          TransportResponse.from_response) := by
  refine ⟨?_, ?_, ?_, ?_⟩
  · intro hv hca
    unfold ProtocolHandler.ssl_kwargs
    rw [hv, hca]; rfl
  · intro hv hca
    unfold ProtocolHandler.ssl_kwargs
    rw [hv, hca]; rfl
  · intro hv
    unfold ProtocolHandler.ssl_kwargs
    rw [hv]; rfl
  · intro hssl hsec hfp
    unfold ProtocolHandler.try_body
    have hsec2 : config.protocol.is_secure = true := by rw [hsec]; rfl
    rw [hssl, hsec2]
    dsimp only
    simp only [ProtocolHandler.pin_check, hfp]
    cases hm : net.main (some (ProtocolHandler.ssl_kwargs ssl)) <;>
      simp [hm, Except.map]

/-- The `SSLConfig` of an HTTPS descriptor with verification enabled and
a custom CA bundle configured. -/
def sslVerifyCa : SSLConfig :=
  { verify := true, ca_cert_path := some "/ca.crt", client_cert_path := none,
    client_key_path := none, expected_fingerprint := none }

/-- C5 witness: the precedence theorem applied to a verifying CA-bundle
configuration, to the disabled-verification CA-bundle configuration, and
to the default HTTPS configuration's dispatch. -/
theorem C5_verify_precedence_witness :
    (ProtocolHandler.ssl_kwargs sslVerifyCa).verify = VerifyOpt.caBundle "/ca.crt" ∧
    (ProtocolHandler.ssl_kwargs sslNoVerifyCa).verify = VerifyOpt.flag false ∧
    ProtocolHandler.try_body cfgHttps (netConst (.ok { status_code := 200 })) =
      .ok (TransportResponse.from_response { status_code := 200 }) := by
  refine ⟨(C5_verify_precedence sslVerifyCa "/ca.crt" cfgHttps
      (netConst (.ok { status_code := 200 }))).1 rfl rfl,
    (C5_verify_precedence sslNoVerifyCa "/ca.crt" cfgHttps
      (netConst (.ok { status_code := 200 }))).2.2.1 rfl, ?_⟩
  have h := (C5_verify_precedence ({} : SSLConfig) "/ca.crt" cfgHttps
    (netConst (.ok { status_code := 200 }))).2.2.2 rfl rfl rfl
  exact h.trans (by decide)
